import Mathlib

/-!
Verification of the R2-Manager desktop helper (src/src-tauri/src/main.rs).

The program exposes three Tauri commands:
  * `download_and_open_file(url, file_name)` — ensure the temp directory
    exists, HTTP-GET the url, buffer the whole body, create the file at
    `temp_dir.join(file_name)`, write the bytes, flush, hand the path to the
    OS opener, and return the path string;
  * `open_file(path)` — compile-time platform dispatch spawning the OS
    default-handler process (`cmd /c start "" path` on Windows, `open path`
    on macOS, `xdg-open path` on Linux), without awaiting it;
  * `get_platform()` — return `std::env::consts::OS`.

The embedding threads an explicit `World` (directories, files, spawned
processes) through each step, and an `Env` of oracle outcomes for each
fallible primitive (directory creation, network send, body read, file
creation, write, flush, process spawn), mirroring the Rust control flow
line by line.  Each run also records the ordered trace of attempted
effectful steps as a list of `Event`s.
-/

deriving instance DecidableEq for Except

namespace R2Manager

/-- Bytes of an HTTP body or of a file, as a list of byte values. -/
abbrev Bytes := List Nat

/-- The possible values of `std::env::consts::OS` (a fixed finite set,
chosen at compile time). -/
inductive Platform
  | windows
  | macos
  | linux
  | ios
  | android
  | freebsd
  | dragonfly
  | netbsd
  | openbsd
  | solaris
  deriving DecidableEq, Repr

/-- `std::env::consts::OS` for each platform. -/
def osName : Platform → String
  | .windows => "windows"
  | .macos => "macos"
  | .linux => "linux"
  | .ios => "ios"
  | .android => "android"
  | .freebsd => "freebsd"
  | .dragonfly => "dragonfly"
  | .netbsd => "netbsd"
  | .openbsd => "openbsd"
  | .solaris => "solaris"

/-- The fixed finite set of identifiers `std::env::consts::OS` draws from. -/
def osNames : List String :=
  ["windows", "macos", "linux", "ios", "android",
   "freebsd", "dragonfly", "netbsd", "openbsd", "solaris"]

/-- A spawned external process: program name and argument list. -/
structure Proc where
  program : String
  args : List String
  deriving DecidableEq, Repr

/-- The observable machine state: existing directories, files with their
contents, and the processes spawned so far. -/
structure World where
  dirs : List String
  files : List (String × Bytes)
  spawned : List Proc
  deriving DecidableEq, Repr

/-- The empty starting state. -/
def emptyWorld : World := ⟨[], [], []⟩

/-- Content of the file at path `p`, if it exists. -/
def lookupFile (w : World) (p : String) : Option Bytes :=
  w.files.lookup p

/-- Create or overwrite the file at `p` with content `b`. -/
def setFile (w : World) (p : String) (b : Bytes) : World :=
  { w with files := (p, b) :: w.files.filter (fun kv => kv.1 != p) }

/-- Append `b` to the current content of the file at `p`
(`AsyncWriteExt::write_all`). -/
def appendFile (w : World) (p : String) (b : Bytes) : World :=
  setFile w p ((lookupFile w p).getD [] ++ b)

/-- `std::fs::create_dir_all`: create the directory if missing; an existing
directory is not an error. -/
def createDirAll (w : World) (d : String) : World :=
  if d ∈ w.dirs then w else { w with dirs := d :: w.dirs }

/-- Record a spawned process. -/
def spawnProc (w : World) (c : Proc) : World :=
  { w with spawned := w.spawned ++ [c] }

/-- Unix semantics of `Path::is_absolute`: the path starts with `/`. -/
def isAbsolutePath (p : String) : Bool :=
  match p.data with
  | [] => false
  | c :: _ => c = '/'

/-- `PathBuf::join`: an absolute right-hand argument replaces the base. -/
def pathJoin (base name : String) : String :=
  if isAbsolutePath name then name else base ++ "/" ++ name

/-- Oracle outcomes for each fallible primitive a single
`download_and_open_file` call performs, in source order.  An `Except.error`
carries the raw OS/transport message the code interpolates into its
`format!` string. -/
structure Env where
  createDirRes : Except String Unit
  sendRes : Except String Unit
  bytesRes : Except String Bytes
  createFileRes : Except String Unit
  writeRes : Except String Unit
  flushRes : Except String Unit
  spawnRes : Except String Unit
  deriving DecidableEq, Repr

/-- The ordered effectful steps a run attempts. -/
inductive Event
  | createDir
  | httpSend
  | httpBytes
  | fileCreate
  | fileWrite
  | fileFlush
  | spawn
  deriving DecidableEq, Repr

/-- Result of one `download_and_open_file` run: the returned
`Result<String, String>`, the final machine state, and the trace of
attempted steps. -/
structure RunResult where
  res : Except String String
  world : World
  events : List Event
  deriving DecidableEq, Repr

/-- The process the `open_file` command launches on each platform:
`cmd /c start "" path` under `cfg(target_os = "windows")`, `open path`
under `cfg(target_os = "macos")`, `xdg-open path` under
`cfg(target_os = "linux")`, and nothing elsewhere (no `cfg` block
applies). -/
def openCommand (plat : Platform) (file_path : String) : Option Proc :=
  match plat with
  | .windows => some ⟨"cmd", ["/c", "start", "\"\"", file_path]⟩
  | .macos => some ⟨"open", [file_path]⟩
  | .linux => some ⟨"xdg-open", [file_path]⟩
  | _ => none

/-- Platforms for which `open_file` has a `cfg` block. -/
def supported : Platform → Bool
  | .windows => true
  | .macos => true
  | .linux => true
  | _ => false

/-- The `open_file` Tauri command.  On a supported platform it spawns the
opener process of the platform (recording it, never awaiting it) or fails with
`"Failed to open file: <e>"` when the spawn fails; on any other platform no
`cfg` block applies and the function falls through to `Ok(())` without
touching the world. -/
def open_file (plat : Platform) (spawnRes : Except String Unit)
    (file_path : String) (w : World) :
    Except String Unit × World × List Event :=
  match openCommand plat file_path with
  | none => (.ok (), w, [])
  | some c =>
    match spawnRes with
    | .error e => (.error ("Failed to open file: " ++ e), w, [.spawn])
    | .ok _ => (.ok (), spawnProc w c, [.spawn])

/-- The `download_and_open_file` Tauri command, step for step from the
source: create the temp directory, join the file name onto it, send the
GET request, buffer the whole body, create the destination file, write all
bytes, flush, hand the path to `open_file`, and return the path string.
Every failure is wrapped in its own `format!` message and returned at
once; the trace records each step as it is attempted. -/
def download_and_open_file (temp_dir _url file_name : String)
    (plat : Platform) (env : Env) (w : World) : RunResult :=
  match env.createDirRes with
  | .error e =>
    ⟨.error ("Failed to create temp directory: " ++ e), w, [.createDir]⟩
  | .ok _ =>
    let w1 := createDirAll w temp_dir
    let file_path := pathJoin temp_dir file_name
    match env.sendRes with
    | .error e =>
      ⟨.error ("Failed to download file: " ++ e), w1, [.createDir, .httpSend]⟩
    | .ok _ =>
      match env.bytesRes with
      | .error e =>
        ⟨.error ("Failed to read response: " ++ e), w1,
         [.createDir, .httpSend, .httpBytes]⟩
      | .ok bytes =>
        match env.createFileRes with
        | .error e =>
          ⟨.error ("Failed to create file: " ++ e), w1,
           [.createDir, .httpSend, .httpBytes, .fileCreate]⟩
        | .ok _ =>
          let w2 := setFile w1 file_path []
          match env.writeRes with
          | .error e =>
            ⟨.error ("Failed to write file: " ++ e), w2,
             [.createDir, .httpSend, .httpBytes, .fileCreate, .fileWrite]⟩
          | .ok _ =>
            let w3 := appendFile w2 file_path bytes
            match env.flushRes with
            | .error e =>
              ⟨.error ("Failed to flush file: " ++ e), w3,
               [.createDir, .httpSend, .httpBytes, .fileCreate, .fileWrite,
                .fileFlush]⟩
            | .ok _ =>
              match open_file plat env.spawnRes file_path w3 with
              | (.error e, w4, evs) =>
                ⟨.error e, w4,
                 [.createDir, .httpSend, .httpBytes, .fileCreate, .fileWrite,
                  .fileFlush] ++ evs⟩
              | (.ok _, w4, evs) =>
                ⟨.ok file_path, w4,
                 [.createDir, .httpSend, .httpBytes, .fileCreate, .fileWrite,
                  .fileFlush] ++ evs⟩

/-- The `get_platform` Tauri command: returns `std::env::consts::OS`
(here a pure function of the compile-time platform), leaving the world
untouched; its return type has no error case. -/
def get_platform (plat : Platform) (w : World) : String × World :=
  (osName plat, w)

/-- The seven `format!` message heads of `download_and_open_file` and
`open_file`, in source order. -/
def failureTags : List String :=
  ["Failed to create temp directory: ",
   "Failed to download file: ",
   "Failed to read response: ",
   "Failed to create file: ",
   "Failed to write file: ",
   "Failed to flush file: ",
   "Failed to open file: "]

/-- All seven oracle outcomes succeed, the body being `bs`. -/
def allOk (env : Env) (bs : Bytes) : Prop :=
  env.createDirRes = .ok () ∧ env.sendRes = .ok () ∧
  env.bytesRes = .ok bs ∧ env.createFileRes = .ok () ∧
  env.writeRes = .ok () ∧ env.flushRes = .ok () ∧ env.spawnRes = .ok ()

/-- A fully successful environment delivering body `bs`. -/
def okEnv (bs : Bytes) : Env :=
  ⟨.ok (), .ok (), .ok bs, .ok (), .ok (), .ok (), .ok ()⟩

lemma allOk_okEnv (bs : Bytes) : allOk (okEnv bs) bs :=
  ⟨rfl, rfl, rfl, rfl, rfl, rfl, rfl⟩

/-- World after the final `open_file` hand-off on platform `plat`. -/
def openWorld (plat : Platform) (fp : String) (w : World) : World :=
  match openCommand plat fp with
  | none => w
  | some c => spawnProc w c

/-- Events the final `open_file` hand-off contributes. -/
def openEvents (plat : Platform) : List Event :=
  if supported plat then [.spawn] else []

lemma dl_createDirFail (t u n : String) (plat : Platform) (env : Env)
    (w : World) (e : String) (h : env.createDirRes = .error e) :
    download_and_open_file t u n plat env w =
      ⟨.error ("Failed to create temp directory: " ++ e), w, [.createDir]⟩ := by
  unfold download_and_open_file
  rw [h]

lemma dl_sendFail (t u n : String) (plat : Platform) (env : Env)
    (w : World) (e : String)
    (h1 : env.createDirRes = .ok ()) (h : env.sendRes = .error e) :
    download_and_open_file t u n plat env w =
      ⟨.error ("Failed to download file: " ++ e), createDirAll w t,
       [.createDir, .httpSend]⟩ := by
  unfold download_and_open_file
  rw [h1, h]

lemma dl_bytesFail (t u n : String) (plat : Platform) (env : Env)
    (w : World) (e : String)
    (h1 : env.createDirRes = .ok ()) (h2 : env.sendRes = .ok ())
    (h : env.bytesRes = .error e) :
    download_and_open_file t u n plat env w =
      ⟨.error ("Failed to read response: " ++ e), createDirAll w t,
       [.createDir, .httpSend, .httpBytes]⟩ := by
  unfold download_and_open_file
  rw [h1, h2, h]

lemma dl_createFileFail (t u n : String) (plat : Platform) (env : Env)
    (w : World) (e : String) (bs : Bytes)
    (h1 : env.createDirRes = .ok ()) (h2 : env.sendRes = .ok ())
    (h3 : env.bytesRes = .ok bs) (h : env.createFileRes = .error e) :
    download_and_open_file t u n plat env w =
      ⟨.error ("Failed to create file: " ++ e), createDirAll w t,
       [.createDir, .httpSend, .httpBytes, .fileCreate]⟩ := by
  unfold download_and_open_file
  rw [h1, h2, h3, h]

lemma dl_writeFail (t u n : String) (plat : Platform) (env : Env)
    (w : World) (e : String) (bs : Bytes)
    (h1 : env.createDirRes = .ok ()) (h2 : env.sendRes = .ok ())
    (h3 : env.bytesRes = .ok bs) (h4 : env.createFileRes = .ok ())
    (h : env.writeRes = .error e) :
    download_and_open_file t u n plat env w =
      ⟨.error ("Failed to write file: " ++ e),
       setFile (createDirAll w t) (pathJoin t n) [],
       [.createDir, .httpSend, .httpBytes, .fileCreate, .fileWrite]⟩ := by
  unfold download_and_open_file
  rw [h1, h2, h3, h4, h]

lemma dl_flushFail (t u n : String) (plat : Platform) (env : Env)
    (w : World) (e : String) (bs : Bytes)
    (h1 : env.createDirRes = .ok ()) (h2 : env.sendRes = .ok ())
    (h3 : env.bytesRes = .ok bs) (h4 : env.createFileRes = .ok ())
    (h5 : env.writeRes = .ok ()) (h : env.flushRes = .error e) :
    download_and_open_file t u n plat env w =
      ⟨.error ("Failed to flush file: " ++ e),
       appendFile (setFile (createDirAll w t) (pathJoin t n) [])
         (pathJoin t n) bs,
       [.createDir, .httpSend, .httpBytes, .fileCreate, .fileWrite,
        .fileFlush]⟩ := by
  unfold download_and_open_file
  rw [h1, h2, h3, h4, h5, h]

lemma dl_spawnFail (t u n : String) (plat : Platform) (env : Env)
    (w : World) (e : String) (bs : Bytes)
    (h1 : env.createDirRes = .ok ()) (h2 : env.sendRes = .ok ())
    (h3 : env.bytesRes = .ok bs) (h4 : env.createFileRes = .ok ())
    (h5 : env.writeRes = .ok ()) (h6 : env.flushRes = .ok ())
    (hsup : supported plat = true) (h : env.spawnRes = .error e) :
    download_and_open_file t u n plat env w =
      ⟨.error ("Failed to open file: " ++ e),
       appendFile (setFile (createDirAll w t) (pathJoin t n) [])
         (pathJoin t n) bs,
       [.createDir, .httpSend, .httpBytes, .fileCreate, .fileWrite,
        .fileFlush, .spawn]⟩ := by
  unfold download_and_open_file
  rw [h1, h2, h3, h4, h5, h6]
  cases plat <;> simp_all [supported, open_file, openCommand]

lemma dl_allOk (t u n : String) (plat : Platform) (env : Env)
    (w : World) (bs : Bytes) (h : allOk env bs) :
    download_and_open_file t u n plat env w =
      ⟨.ok (pathJoin t n),
       openWorld plat (pathJoin t n)
         (appendFile (setFile (createDirAll w t) (pathJoin t n) [])
           (pathJoin t n) bs),
       [.createDir, .httpSend, .httpBytes, .fileCreate, .fileWrite,
        .fileFlush] ++ openEvents plat⟩ := by
  obtain ⟨h1, h2, h3, h4, h5, h6, h7⟩ := h
  unfold download_and_open_file
  rw [h1, h2, h3, h4, h5, h6, h7]
  cases plat <;> rfl

/-- Whether an oracle outcome succeeded. -/
def outcomeOk : Except String Bytes → Bool
  | .ok _ => true
  | .error _ => false

/-- The run succeeds exactly when the first six primitives succeed and the
spawn either succeeds or is never attempted (unsupported platform); the
result is then the canonical success `RunResult`. -/
lemma dl_success (t u n : String) (plat : Platform) (env : Env)
    (w : World) (bs : Bytes)
    (h1 : env.createDirRes = .ok ()) (h2 : env.sendRes = .ok ())
    (h3 : env.bytesRes = .ok bs) (h4 : env.createFileRes = .ok ())
    (h5 : env.writeRes = .ok ()) (h6 : env.flushRes = .ok ())
    (h7 : supported plat = false ∨ env.spawnRes = .ok ()) :
    download_and_open_file t u n plat env w =
      ⟨.ok (pathJoin t n),
       openWorld plat (pathJoin t n)
         (appendFile (setFile (createDirAll w t) (pathJoin t n) [])
           (pathJoin t n) bs),
       [.createDir, .httpSend, .httpBytes, .fileCreate, .fileWrite,
        .fileFlush] ++ openEvents plat⟩ := by
  unfold download_and_open_file
  rw [h1, h2, h3, h4, h5, h6]
  rcases h7 with h7 | h7
  · cases plat <;>
      simp_all [supported, open_file, openCommand, openWorld, openEvents]
  · rw [h7]
    cases plat <;> rfl

/-- A successful run forces every oracle up to the flush to have
succeeded (and the spawn, on a supported platform), and fully determines
the returned path and the final state. -/
lemma dl_success_inv (t u n p : String) (plat : Platform) (env : Env)
    (w : World)
    (hres : (download_and_open_file t u n plat env w).res = .ok p) :
    ∃ bs, env.createDirRes = .ok () ∧ env.sendRes = .ok () ∧
      env.bytesRes = .ok bs ∧ env.createFileRes = .ok () ∧
      env.writeRes = .ok () ∧ env.flushRes = .ok () ∧
      (supported plat = false ∨ env.spawnRes = .ok ()) ∧
      p = pathJoin t n ∧
      download_and_open_file t u n plat env w =
        ⟨.ok (pathJoin t n),
         openWorld plat (pathJoin t n)
           (appendFile (setFile (createDirAll w t) (pathJoin t n) [])
             (pathJoin t n) bs),
         [.createDir, .httpSend, .httpBytes, .fileCreate, .fileWrite,
          .fileFlush] ++ openEvents plat⟩ := by
  cases hcd : env.createDirRes with
  | error e => rw [dl_createDirFail t u n plat env w e hcd] at hres; simp at hres
  | ok u1 =>
  cases u1
  cases hsr : env.sendRes with
  | error e => rw [dl_sendFail t u n plat env w e hcd hsr] at hres; simp at hres
  | ok u2 =>
  cases u2
  cases hbr : env.bytesRes with
  | error e =>
    rw [dl_bytesFail t u n plat env w e hcd hsr hbr] at hres; simp at hres
  | ok bs =>
  cases hcf : env.createFileRes with
  | error e =>
    rw [dl_createFileFail t u n plat env w e bs hcd hsr hbr hcf] at hres
    simp at hres
  | ok u3 =>
  cases u3
  cases hwr : env.writeRes with
  | error e =>
    rw [dl_writeFail t u n plat env w e bs hcd hsr hbr hcf hwr] at hres
    simp at hres
  | ok u4 =>
  cases u4
  cases hfl : env.flushRes with
  | error e =>
    rw [dl_flushFail t u n plat env w e bs hcd hsr hbr hcf hwr hfl] at hres
    simp at hres
  | ok u5 =>
  cases u5
  cases hsp : env.spawnRes with
  | error e =>
    cases hs : supported plat with
    | true =>
      rw [dl_spawnFail t u n plat env w e bs hcd hsr hbr hcf hwr hfl hs hsp]
        at hres
      simp at hres
    | false =>
      have hd := dl_success t u n plat env w bs hcd hsr hbr hcf hwr hfl
        (Or.inl hs)
      rw [hd] at hres
      have h9 : Except.ok (pathJoin t n) = Except.ok p := hres
      exact ⟨bs, rfl, rfl, rfl, rfl, rfl, rfl, Or.inl rfl,
        (Except.ok.inj h9).symm, hd⟩
  | ok u6 =>
    cases u6
    have hd := dl_success t u n plat env w bs hcd hsr hbr hcf hwr hfl
      (Or.inr hsp)
    rw [hd] at hres
    have h9 : Except.ok (pathJoin t n) = Except.ok p := hres
    exact ⟨bs, rfl, rfl, rfl, rfl, rfl, rfl, Or.inr rfl,
      (Except.ok.inj h9).symm, hd⟩

/-- The trace of every run starts with the directory-creation step. -/
lemma dl_events_head (t u n : String) (plat : Platform) (env : Env)
    (w : World) :
    (download_and_open_file t u n plat env w).events.head? =
      some Event.createDir := by
  obtain ⟨cd, sr, br, cf, wr, fl, sp⟩ := env
  cases cd <;> cases sr <;> cases br <;> cases cf <;> cases wr <;> cases fl
    <;> cases sp <;> first | rfl | (cases plat <;> rfl)

lemma createDirAll_files (w : World) (d : String) :
    (createDirAll w d).files = w.files := by
  by_cases h : d ∈ w.dirs <;> simp [createDirAll, h]

lemma lookupFile_setFile (w : World) (p : String) (b : Bytes) :
    lookupFile (setFile w p b) p = some b := by
  simp [lookupFile, setFile, List.lookup]

lemma lookupFile_spawnProc (w : World) (c : Proc) (p : String) :
    lookupFile (spawnProc w c) p = lookupFile w p := rfl

lemma lookupFile_openWorld (plat : Platform) (fp : String) (w : World)
    (p : String) : lookupFile (openWorld plat fp w) p = lookupFile w p := by
  cases plat <;> rfl

lemma lookup_after_write (w : World) (p : String) (bs : Bytes) :
    lookupFile (appendFile (setFile w p []) p bs) p = some bs := by
  simp [appendFile, lookupFile_setFile]

lemma mem_createDirAll (w : World) (d : String) :
    d ∈ (createDirAll w d).dirs := by
  by_cases h : d ∈ w.dirs <;> simp [createDirAll, h]

lemma createDirAll_of_mem (w : World) (d : String) (h : d ∈ w.dirs) :
    createDirAll w d = w := by
  simp [createDirAll, h]

lemma openWorld_dirs (plat : Platform) (fp : String) (w : World) :
    (openWorld plat fp w).dirs = w.dirs := by
  cases plat <;> rfl

lemma openWorld_files (plat : Platform) (fp : String) (w : World) :
    (openWorld plat fp w).files = w.files := by
  cases plat <;> rfl

/-- C3: on a platform other than Windows, macOS, and Linux, `open_file`
performs no action and returns success: for every file path (and whatever
outcome a spawn would have had) it spawns no process, changes nothing, and
yields no error. -/
theorem C3_unsupported_platform_silent_noop (plat : Platform)
    (sp : Except String Unit) (fp : String) (w : World)
    (h : supported plat = false) :
    open_file plat sp fp w = (.ok (), w, []) := by
  cases plat <;> simp_all [supported, open_file, openCommand]

/-- Witness for C3 at a concrete unsupported platform (FreeBSD), with a
spawn oracle that would fail — it is never consulted. -/
theorem C3_unsupported_platform_silent_noop_witness :
    open_file Platform.freebsd (.error "spawn failed") "/tmp/r2-manager/a.txt"
      emptyWorld = (.ok (), emptyWorld, []) :=
  C3_unsupported_platform_silent_noop Platform.freebsd (.error "spawn failed")
    "/tmp/r2-manager/a.txt" emptyWorld (by decide)

/-- C7: `open_file` dispatches over exactly the three supported platform
variants: Windows runs the shell command interpreter with a `start` action
(`cmd /c start "" <path>`), macOS runs the `open` utility directly, and
Linux runs the freedesktop open utility `xdg-open` directly.  In each case
the process is only recorded as spawned — the command returns `Ok(())`
immediately, never awaiting the child (the model keeps no completion state
for spawned processes). -/
theorem C7_open_file_platform_dispatch (fp : String) (w : World) :
    open_file .windows (.ok ()) fp w =
      (.ok (), spawnProc w ⟨"cmd", ["/c", "start", "\"\"", fp]⟩, [.spawn]) ∧
    open_file .macos (.ok ()) fp w =
      (.ok (), spawnProc w ⟨"open", [fp]⟩, [.spawn]) ∧
    open_file .linux (.ok ()) fp w =
      (.ok (), spawnProc w ⟨"xdg-open", [fp]⟩, [.spawn]) ∧
    (∀ plat : Platform, supported plat = false → openCommand plat fp = none) :=
  ⟨rfl, rfl, rfl, fun plat h => by cases plat <;> simp_all [supported, openCommand]⟩

/-- Witness for C7 at a concrete path: the Windows dispatch equation and
the absence of a command on a platform outside the three variants. -/
theorem C7_open_file_platform_dispatch_witness :
    open_file Platform.windows (.ok ()) "/tmp/r2-manager/a.txt" emptyWorld =
      (.ok (),
       spawnProc emptyWorld
         ⟨"cmd", ["/c", "start", "\"\"", "/tmp/r2-manager/a.txt"]⟩,
       [Event.spawn]) ∧
    openCommand Platform.solaris "/tmp/r2-manager/a.txt" = none :=
  ⟨(C7_open_file_platform_dispatch "/tmp/r2-manager/a.txt" emptyWorld).1,
   (C7_open_file_platform_dispatch "/tmp/r2-manager/a.txt" emptyWorld).2.2.2
     Platform.solaris (by decide)⟩

/-- C9: `get_platform` returns an identifier from the fixed finite set of
`std::env::consts::OS` names, leaves the world untouched (no side
effects; its type has no error case), and returns the same string on any
two calls within one process (the platform is a compile-time constant). -/
theorem C9_get_platform_fixed_and_stable (plat : Platform) (w w2 : World) :
    (get_platform plat w).1 ∈ osNames ∧
    (get_platform plat w).2 = w ∧
    (get_platform plat w).1 = (get_platform plat w2).1 := by
  refine ⟨?_, rfl, rfl⟩
  cases plat <;> simp [get_platform, osName, osNames]

/-- C10: when `file_name` is absolute, `PathBuf::join` discards the base,
so the destination is `file_name` itself: a successful run returns
`file_name` and writes the body there, escaping the temp directory. -/
theorem C10_absolute_file_name_escapes_temp_dir (t u n : String)
    (plat : Platform) (env : Env) (w : World) (bs : Bytes)
    (habs : isAbsolutePath n = true) (h : allOk env bs) :
    pathJoin t n = n ∧
    (download_and_open_file t u n plat env w).res = .ok n ∧
    lookupFile (download_and_open_file t u n plat env w).world n = some bs := by
  have hj : pathJoin t n = n := by simp [pathJoin, habs]
  rw [dl_allOk t u n plat env w bs h, hj]
  exact ⟨rfl, rfl, by rw [lookupFile_openWorld]; exact lookup_after_write _ _ _⟩

/-- Witness for C10: with `file_name = "/etc/hosts"` the run returns
`/etc/hosts` itself, not a path under `/tmp/r2-manager`. -/
theorem C10_absolute_file_name_escapes_temp_dir_witness :
    pathJoin "/tmp/r2-manager" "/etc/hosts" = "/etc/hosts" ∧
    (download_and_open_file "/tmp/r2-manager" "http://example.com/f"
        "/etc/hosts" Platform.macos (okEnv [7, 8]) emptyWorld).res =
      .ok "/etc/hosts" ∧
    lookupFile (download_and_open_file "/tmp/r2-manager" "http://example.com/f"
        "/etc/hosts" Platform.macos (okEnv [7, 8]) emptyWorld).world
      "/etc/hosts" = some [7, 8] :=
  C10_absolute_file_name_escapes_temp_dir "/tmp/r2-manager"
    "http://example.com/f" "/etc/hosts" Platform.macos (okEnv [7, 8])
    emptyWorld [7, 8] (by decide) (allOk_okEnv [7, 8])

/-- C1 fails as stated: with the absolute file name `/etc/passwd` the call
succeeds, yet the returned path is `/etc/passwd` itself and not
`<temp_dir>/<file_name>` (`PathBuf::join` discards the base for an
absolute argument). -/
theorem C1_counterexample_absolute_name :
    (download_and_open_file "/tmp/r2-manager" "http://example.com/f"
        "/etc/passwd" Platform.linux (okEnv [104, 105]) emptyWorld).res =
      .ok "/etc/passwd" ∧
    "/etc/passwd" ≠ "/tmp/r2-manager" ++ "/" ++ "/etc/passwd" := by
  decide

/-- C1 (amended): for every URL and every non-absolute file name on which
it succeeds, `download_and_open_file` returns the path string
`<temp_dir>/<file_name>` and the file at that path holds exactly the bytes
of the fetched response body. -/
theorem C1_success_returns_joined_path_with_body (t u n p : String)
    (plat : Platform) (env : Env) (w : World) (bs : Bytes)
    (habs : isAbsolutePath n = false)
    (hbytes : env.bytesRes = .ok bs)
    (hres : (download_and_open_file t u n plat env w).res = .ok p) :
    p = t ++ "/" ++ n ∧
    lookupFile (download_and_open_file t u n plat env w).world p =
      some bs := by
  obtain ⟨bs2, hcd, hsr, hbr, hcf, hwr, hfl, hsp, hp, hd⟩ :=
    dl_success_inv t u n p plat env w hres
  rw [hbytes] at hbr
  obtain rfl : bs = bs2 := Except.ok.inj hbr
  have hj : pathJoin t n = t ++ "/" ++ n := by simp [pathJoin, habs]
  subst hp
  refine ⟨hj, ?_⟩
  rw [hd]
  simp only [lookupFile_openWorld, lookup_after_write]

/-- Witness for the amended C1: body `hello` lands at
`/tmp/r2-manager/greeting.txt` and that path is returned. -/
theorem C1_success_returns_joined_path_with_body_witness :
    ("/tmp/r2-manager/greeting.txt" : String) =
      "/tmp/r2-manager" ++ "/" ++ "greeting.txt" ∧
    lookupFile (download_and_open_file "/tmp/r2-manager"
        "http://example.com/f" "greeting.txt" Platform.linux
        (okEnv [104, 101, 108, 108, 111]) emptyWorld).world
      "/tmp/r2-manager/greeting.txt" = some [104, 101, 108, 108, 111] :=
  C1_success_returns_joined_path_with_body "/tmp/r2-manager"
    "http://example.com/f" "greeting.txt" "/tmp/r2-manager/greeting.txt"
    Platform.linux (okEnv [104, 101, 108, 108, 111]) emptyWorld
    [104, 101, 108, 108, 111] (by decide) rfl (by decide)

/-- C2: each of the seven failure points returns its own descriptive
error string (a plain `String`, the seven message heads being pairwise
distinct), and execution stops at the failing step: the trace ends there
and the final state reflects only the steps before it. -/
theorem C2_failures_distinct_and_abort (t u n : String) (plat : Platform)
    (env : Env) (w : World) (e : String) (bs : Bytes) :
    (env.createDirRes = .error e →
      download_and_open_file t u n plat env w =
        ⟨.error ("Failed to create temp directory: " ++ e), w,
         [.createDir]⟩) ∧
    (env.createDirRes = .ok () → env.sendRes = .error e →
      download_and_open_file t u n plat env w =
        ⟨.error ("Failed to download file: " ++ e), createDirAll w t,
         [.createDir, .httpSend]⟩) ∧
    (env.createDirRes = .ok () → env.sendRes = .ok () →
      env.bytesRes = .error e →
      download_and_open_file t u n plat env w =
        ⟨.error ("Failed to read response: " ++ e), createDirAll w t,
         [.createDir, .httpSend, .httpBytes]⟩) ∧
    (env.createDirRes = .ok () → env.sendRes = .ok () →
      env.bytesRes = .ok bs → env.createFileRes = .error e →
      download_and_open_file t u n plat env w =
        ⟨.error ("Failed to create file: " ++ e), createDirAll w t,
         [.createDir, .httpSend, .httpBytes, .fileCreate]⟩) ∧
    (env.createDirRes = .ok () → env.sendRes = .ok () →
      env.bytesRes = .ok bs → env.createFileRes = .ok () →
      env.writeRes = .error e →
      download_and_open_file t u n plat env w =
        ⟨.error ("Failed to write file: " ++ e),
         setFile (createDirAll w t) (pathJoin t n) [],
         [.createDir, .httpSend, .httpBytes, .fileCreate, .fileWrite]⟩) ∧
    (env.createDirRes = .ok () → env.sendRes = .ok () →
      env.bytesRes = .ok bs → env.createFileRes = .ok () →
      env.writeRes = .ok () → env.flushRes = .error e →
      download_and_open_file t u n plat env w =
        ⟨.error ("Failed to flush file: " ++ e),
         appendFile (setFile (createDirAll w t) (pathJoin t n) [])
           (pathJoin t n) bs,
         [.createDir, .httpSend, .httpBytes, .fileCreate, .fileWrite,
          .fileFlush]⟩) ∧
    (env.createDirRes = .ok () → env.sendRes = .ok () →
      env.bytesRes = .ok bs → env.createFileRes = .ok () →
      env.writeRes = .ok () → env.flushRes = .ok () →
      supported plat = true → env.spawnRes = .error e →
      download_and_open_file t u n plat env w =
        ⟨.error ("Failed to open file: " ++ e),
         appendFile (setFile (createDirAll w t) (pathJoin t n) [])
           (pathJoin t n) bs,
         [.createDir, .httpSend, .httpBytes, .fileCreate, .fileWrite,
          .fileFlush, .spawn]⟩) ∧
    failureTags.Pairwise (· ≠ ·) :=
  ⟨dl_createDirFail t u n plat env w e,
   dl_sendFail t u n plat env w e,
   dl_bytesFail t u n plat env w e,
   dl_createFileFail t u n plat env w e bs,
   dl_writeFail t u n plat env w e bs,
   dl_flushFail t u n plat env w e bs,
   dl_spawnFail t u n plat env w e bs,
   by decide⟩

/-- Witness for C2: a concrete directory-creation failure surfaces as
`Failed to create temp directory: disk full` and nothing else runs. -/
theorem C2_failures_distinct_and_abort_witness :
    download_and_open_file "/tmp/r2-manager" "http://example.com/f" "a.txt"
        Platform.linux
        ⟨.error "disk full", .ok (), .ok [1], .ok (), .ok (), .ok (), .ok ()⟩
        emptyWorld =
      ⟨.error "Failed to create temp directory: disk full", emptyWorld,
       [Event.createDir]⟩ :=
  (C2_failures_distinct_and_abort "/tmp/r2-manager" "http://example.com/f"
    "a.txt" Platform.linux
    ⟨.error "disk full", .ok (), .ok [1], .ok (), .ok (), .ok (), .ok ()⟩
    emptyWorld "disk full" [1]).1 rfl

/-- C4: two sequential successful calls with the same file name both
succeed — the second overwrites, no error arises from the collision — and
afterwards the file holds the content of the second response. -/
theorem C4_same_name_second_call_overwrites (t u1 u2 n : String)
    (plat : Platform) (env1 env2 : Env) (w : World) (b1 b2 : Bytes)
    (h1 : allOk env1 b1) (h2 : allOk env2 b2) :
    (download_and_open_file t u1 n plat env1 w).res = .ok (pathJoin t n) ∧
    (download_and_open_file t u2 n plat env2
        (download_and_open_file t u1 n plat env1 w).world).res =
      .ok (pathJoin t n) ∧
    lookupFile (download_and_open_file t u2 n plat env2
        (download_and_open_file t u1 n plat env1 w).world).world
      (pathJoin t n) = some b2 := by
  rw [dl_allOk t u1 n plat env1 w b1 h1]
  rw [dl_allOk t u2 n plat env2 _ b2 h2]
  refine ⟨rfl, rfl, ?_⟩
  simp only [lookupFile_openWorld, lookup_after_write]

/-- Witness for C4: first body `[1, 2]`, second body `[9]`; the file ends
up holding `[9]` and both calls succeed. -/
theorem C4_same_name_second_call_overwrites_witness :
    (download_and_open_file "/tmp/r2-manager" "http://a" "report.pdf"
        Platform.windows (okEnv [1, 2]) emptyWorld).res =
      .ok (pathJoin "/tmp/r2-manager" "report.pdf") ∧
    (download_and_open_file "/tmp/r2-manager" "http://b" "report.pdf"
        Platform.windows (okEnv [9])
        (download_and_open_file "/tmp/r2-manager" "http://a" "report.pdf"
          Platform.windows (okEnv [1, 2]) emptyWorld).world).res =
      .ok (pathJoin "/tmp/r2-manager" "report.pdf") ∧
    lookupFile (download_and_open_file "/tmp/r2-manager" "http://b"
        "report.pdf" Platform.windows (okEnv [9])
        (download_and_open_file "/tmp/r2-manager" "http://a" "report.pdf"
          Platform.windows (okEnv [1, 2]) emptyWorld).world).world
      (pathJoin "/tmp/r2-manager" "report.pdf") = some [9] :=
  C4_same_name_second_call_overwrites "/tmp/r2-manager" "http://a" "http://b"
    "report.pdf" Platform.windows (okEnv [1, 2]) (okEnv [9]) emptyWorld
    [1, 2] [9] (allOk_okEnv [1, 2]) (allOk_okEnv [9])

/-- C5: after any successful call the temp directory is present, from
either starting state; creation is idempotent (an already-existing
directory is left as-is and is not an error), and the directory-creation
step is the first step of every run — before any write is attempted. -/
theorem C5_temp_dir_present_after_success (t u n p : String)
    (plat : Platform) (env : Env) (w : World) :
    ((download_and_open_file t u n plat env w).res = .ok p →
      t ∈ (download_and_open_file t u n plat env w).world.dirs) ∧
    (t ∈ w.dirs → createDirAll w t = w) ∧
    (download_and_open_file t u n plat env w).events.head? =
      some Event.createDir := by
  refine ⟨?_, createDirAll_of_mem w t, dl_events_head t u n plat env w⟩
  intro hres
  obtain ⟨bs, hcd, hsr, hbr, hcf, hwr, hfl, hsp, hp, hd⟩ :=
    dl_success_inv t u n p plat env w hres
  rw [hd]
  simp only [openWorld_dirs]
  exact mem_createDirAll w t

/-- Witness for C5: a successful run from the empty state leaves
`/tmp/r2-manager` among the directories, and creating it again when it is
already present changes nothing. -/
theorem C5_temp_dir_present_after_success_witness :
    "/tmp/r2-manager" ∈ (download_and_open_file "/tmp/r2-manager" "u" "x.bin"
        Platform.linux (okEnv [3]) emptyWorld).world.dirs ∧
    createDirAll ⟨["/tmp/r2-manager"], [], []⟩ "/tmp/r2-manager" =
      ⟨["/tmp/r2-manager"], [], []⟩ :=
  ⟨(C5_temp_dir_present_after_success "/tmp/r2-manager" "u" "x.bin"
      "/tmp/r2-manager/x.bin" Platform.linux (okEnv [3]) emptyWorld).1
      (by decide),
   (C5_temp_dir_present_after_success "/tmp/r2-manager" "u" "y.bin"
      "/tmp/r2-manager/y.bin" Platform.linux (okEnv [3])
      ⟨["/tmp/r2-manager"], [], []⟩).2.1 (by decide)⟩

/-- C6: the whole body is buffered before any byte reaches disk.  If a
trace of a run contains the file-creation or file-write step, the body read
succeeded and the first three steps of the trace are directory creation,
HTTP send, and full-body read (so both disk steps come after the body was
fully read); and when the body read does not succeed, no file is created
or changed. -/
theorem C6_body_buffered_before_write (t u n : String) (plat : Platform)
    (env : Env) (w : World) :
    ((Event.fileCreate ∈ (download_and_open_file t u n plat env w).events ∨
      Event.fileWrite ∈ (download_and_open_file t u n plat env w).events) →
      (∃ bs, env.bytesRes = .ok bs) ∧
      (download_and_open_file t u n plat env w).events.take 3 =
        [.createDir, .httpSend, .httpBytes]) ∧
    (outcomeOk env.bytesRes = false →
      (download_and_open_file t u n plat env w).world.files = w.files) := by
  constructor
  · intro hmem
    cases hcd : env.createDirRes with
    | error e =>
      rw [dl_createDirFail t u n plat env w e hcd] at hmem
      simp at hmem
    | ok u1 =>
    cases u1
    cases hsr : env.sendRes with
    | error e =>
      rw [dl_sendFail t u n plat env w e hcd hsr] at hmem
      simp at hmem
    | ok u2 =>
    cases u2
    cases hbr : env.bytesRes with
    | error e =>
      rw [dl_bytesFail t u n plat env w e hcd hsr hbr] at hmem
      simp at hmem
    | ok bs =>
    refine ⟨⟨bs, rfl⟩, ?_⟩
    cases hcf : env.createFileRes with
    | error e =>
      rw [dl_createFileFail t u n plat env w e bs hcd hsr hbr hcf]
      rfl
    | ok u3 =>
    cases u3
    cases hwr : env.writeRes with
    | error e =>
      rw [dl_writeFail t u n plat env w e bs hcd hsr hbr hcf hwr]
      rfl
    | ok u4 =>
    cases u4
    cases hfl : env.flushRes with
    | error e =>
      rw [dl_flushFail t u n plat env w e bs hcd hsr hbr hcf hwr hfl]
      rfl
    | ok u5 =>
    cases u5
    cases hsp : env.spawnRes with
    | error e =>
      cases hs : supported plat with
      | true =>
        rw [dl_spawnFail t u n plat env w e bs hcd hsr hbr hcf hwr hfl hs hsp]
        rfl
      | false =>
        rw [dl_success t u n plat env w bs hcd hsr hbr hcf hwr hfl
          (Or.inl hs)]
        rfl
    | ok u6 =>
      cases u6
      rw [dl_success t u n plat env w bs hcd hsr hbr hcf hwr hfl
        (Or.inr hsp)]
      rfl
  · intro hko
    cases hcd : env.createDirRes with
    | error e => rw [dl_createDirFail t u n plat env w e hcd]
    | ok u1 =>
    cases u1
    cases hsr : env.sendRes with
    | error e =>
      rw [dl_sendFail t u n plat env w e hcd hsr]
      exact createDirAll_files w t
    | ok u2 =>
    cases u2
    cases hbr : env.bytesRes with
    | error e =>
      rw [dl_bytesFail t u n plat env w e hcd hsr hbr]
      exact createDirAll_files w t
    | ok bs =>
      rw [hbr] at hko
      simp [outcomeOk] at hko

/-- Witness for C6: on a fully successful run the trace begins with
directory creation, send, and body read; and when the body read fails the
file table is untouched. -/
theorem C6_body_buffered_before_write_witness :
    ((∃ bs, (okEnv [1]).bytesRes = .ok bs) ∧
      (download_and_open_file "/tmp/r2-manager" "u" "a.txt" Platform.linux
          (okEnv [1]) emptyWorld).events.take 3 =
        [Event.createDir, Event.httpSend, Event.httpBytes]) ∧
    (download_and_open_file "/tmp/r2-manager" "u" "b.txt" Platform.linux
        ⟨.ok (), .ok (), .error "connection reset", .ok (), .ok (), .ok (),
         .ok ()⟩ emptyWorld).world.files = emptyWorld.files :=
  ⟨(C6_body_buffered_before_write "/tmp/r2-manager" "u" "a.txt"
      Platform.linux (okEnv [1]) emptyWorld).1 (by decide),
   (C6_body_buffered_before_write "/tmp/r2-manager" "u" "b.txt"
      Platform.linux
      ⟨.ok (), .ok (), .error "connection reset", .ok (), .ok (), .ok (),
       .ok ()⟩ emptyWorld).2 rfl⟩

/-- C8: a failure after the destination file was created — write, flush,
or spawn — returns the error but leaves the file on disk as written so
far: still empty after a write failure, fully written after a flush or
spawn failure.  No rollback or deletion happens. -/
theorem C8_late_failure_leaves_file (t u n : String) (plat : Platform)
    (env : Env) (w : World) (e : String) (bs : Bytes)
    (h1 : env.createDirRes = .ok ()) (h2 : env.sendRes = .ok ())
    (h3 : env.bytesRes = .ok bs) (h4 : env.createFileRes = .ok ()) :
    (env.writeRes = .error e →
      (download_and_open_file t u n plat env w).res =
        .error ("Failed to write file: " ++ e) ∧
      lookupFile (download_and_open_file t u n plat env w).world
        (pathJoin t n) = some []) ∧
    (env.writeRes = .ok () → env.flushRes = .error e →
      (download_and_open_file t u n plat env w).res =
        .error ("Failed to flush file: " ++ e) ∧
      lookupFile (download_and_open_file t u n plat env w).world
        (pathJoin t n) = some bs) ∧
    (env.writeRes = .ok () → env.flushRes = .ok () →
      supported plat = true → env.spawnRes = .error e →
      (download_and_open_file t u n plat env w).res =
        .error ("Failed to open file: " ++ e) ∧
      lookupFile (download_and_open_file t u n plat env w).world
        (pathJoin t n) = some bs) := by
  refine ⟨?_, ?_, ?_⟩
  · intro h5
    rw [dl_writeFail t u n plat env w e bs h1 h2 h3 h4 h5]
    exact ⟨rfl, lookupFile_setFile _ _ _⟩
  · intro h5 h6
    rw [dl_flushFail t u n plat env w e bs h1 h2 h3 h4 h5 h6]
    exact ⟨rfl, lookup_after_write _ _ _⟩
  · intro h5 h6 hs h7
    rw [dl_spawnFail t u n plat env w e bs h1 h2 h3 h4 h5 h6 hs h7]
    exact ⟨rfl, lookup_after_write _ _ _⟩

/-- Witness for C8: a concrete flush failure returns the flush error while
the fully written file stays on disk. -/
theorem C8_late_failure_leaves_file_witness :
    (download_and_open_file "/tmp/r2-manager" "u" "doc.txt" Platform.linux
        ⟨.ok (), .ok (), .ok [5, 6], .ok (), .ok (), .error "io error",
         .ok ()⟩ emptyWorld).res =
      .error ("Failed to flush file: " ++ "io error") ∧
    lookupFile (download_and_open_file "/tmp/r2-manager" "u" "doc.txt"
        Platform.linux
        ⟨.ok (), .ok (), .ok [5, 6], .ok (), .ok (), .error "io error",
         .ok ()⟩ emptyWorld).world (pathJoin "/tmp/r2-manager" "doc.txt") =
      some [5, 6] :=
  (C8_late_failure_leaves_file "/tmp/r2-manager" "u" "doc.txt"
    Platform.linux
    ⟨.ok (), .ok (), .ok [5, 6], .ok (), .ok (), .error "io error", .ok ()⟩
    emptyWorld "io error" [5, 6] rfl rfl rfl rfl).2.1 rfl rfl

end R2Manager
